import Mathlib

/-!
Verification of the leverage-looper core (valuation, loop driver, sweep,
profit tracking) against its natural-language specification.

Python floats are modelled as exact rationals (`ℚ`); every claim under
study is about the algebraic relations the code computes, not about
floating-point rounding.  External effects (price feed, exchange
gateway, clock) are modelled as explicit inputs/oracles passed to the
embedded functions.
-/

namespace LeverageLooper

/-! ## Definitions -/

/-- A flexible-loan position as returned by the gateway
(`collateralCoin`, `loanCoin`, `collateralAmount`, `totalDebt`,
`currentLTV` keys of the Python dict). -/
structure Loan where
  collateralCoin : String
  loanCoin : String
  collateralAmount : ℚ
  totalDebt : ℚ
  currentLTV : ℚ
deriving Repr, DecidableEq

/-- The external price feed: `client.get_price(coin + "USDT")`, with a
failed lookup already degraded to 0 (the `except` branch of
`_get_price`). -/
abbrev Price := String → ℚ

/-- `TARGET_LTV = 0.75` from `leverage_looper.py`. -/
def TARGET_LTV : ℚ := 3 / 4

/-- `MIN_LOOP_USD = 1.0` from `leverage_looper.py`. -/
def MIN_LOOP_USD : ℚ := 1

/-- `MIN_RESERVE_USD = 10.0` from `leverage_looper.py`. -/
def MIN_RESERVE_USD : ℚ := 10

/-- `_get_price`: 1.0 for USDT, otherwise the (fail-soft) feed value. -/
def get_price (pr : Price) (coin : String) : ℚ :=
  if coin = "USDT" then 1 else pr coin

/-- `LeverageLooper.get_current_leverage` (leverage_looper.py lines
50-77): 0 when a price is unavailable or the position is underwater,
otherwise collateral USD over equity. -/
def get_current_leverage (pr : Price) (loan : Loan) : ℚ :=
  let coll_price := get_price pr loan.collateralCoin
  let loan_price := get_price pr loan.loanCoin
  if coll_price = 0 ∨ loan_price = 0 then 0
  else
    let coll_usd := loan.collateralAmount * coll_price
    let debt_usd := loan.totalDebt * loan_price
    if coll_usd ≤ debt_usd then 0
    else
      let equity := coll_usd - debt_usd
      if 0 < equity then coll_usd / equity else 0

/-- `LeverageLooper.calculate_borrow_amount` (leverage_looper.py lines
79-104): how much more can be borrowed to reach the 75% target LTV,
returned as `(amount_in_loan_coin, usd_value)`. -/
def calculate_borrow_amount (pr : Price) (loan : Loan) : ℚ × ℚ :=
  let coll_price := get_price pr loan.collateralCoin
  let loan_price := get_price pr loan.loanCoin
  if coll_price = 0 ∨ loan_price = 0 then (0, 0)
  else
    let coll_usd := loan.collateralAmount * coll_price
    let current_debt_usd := loan.totalDebt * loan_price
    let target_debt_usd := coll_usd * TARGET_LTV
    let borrow_usd := target_debt_usd - current_debt_usd
    if borrow_usd < MIN_LOOP_USD then (0, 0)
    else (borrow_usd / loan_price, borrow_usd)

/-- The valuation record built by `ProfitTracker.calculate_position_equity`
(profit_tracker.py lines 71-115). -/
structure PositionEquity where
  collateral_usd : ℚ
  debt_usd : ℚ
  equity_usd : ℚ
  leverage : ℚ
  ltv : ℚ
deriving Repr, DecidableEq

/-- `ProfitTracker.calculate_position_equity` (profit_tracker.py lines
71-115).  Note: unlike `get_current_leverage` it has no guard on a zero
price; it divides whenever the computed equity is positive. -/
def calculate_position_equity (pr : Price) (loan : Loan) : PositionEquity :=
  let coll_price := get_price pr loan.collateralCoin
  let loan_price := get_price pr loan.loanCoin
  let coll_usd := loan.collateralAmount * coll_price
  let debt_usd := loan.totalDebt * loan_price
  let equity_usd := coll_usd - debt_usd
  let leverage := if 0 < equity_usd then coll_usd / equity_usd else 0
  { collateral_usd := coll_usd
    debt_usd := debt_usd
    equity_usd := equity_usd
    leverage := leverage
    ltv := loan.currentLTV * 100 }

/-- The result of `ProfitTracker.calculate_total_equity`
(profit_tracker.py lines 117-164): a fresh valuation of the whole
account computed from live external state, passed as an input here. -/
structure EquityData where
  total_equity_usd : ℚ
  total_collateral_usd : ℚ
  total_debt_usd : ℚ
  spot_value_usd : ℚ
  timestamp : String
deriving Repr, DecidableEq

/-- One entry of `ProfitTracker.history` as appended by
`record_snapshot` (profit_tracker.py lines 201-209). -/
structure HistEntry where
  timestamp : String
  total_equity_usd : ℚ
  total_collateral_usd : ℚ
  total_debt_usd : ℚ
  spot_value_usd : ℚ
  pnl_absolute_usd : ℚ
  pnl_percent : ℚ
deriving Repr, DecidableEq

/-- The mutable state of a `ProfitTracker`: `history`,
`starting_equity`, `starting_timestamp` (profit_tracker.py lines
21-26). -/
structure TrackerState where
  history : List HistEntry
  starting_equity : Option ℚ
  starting_timestamp : Option String
deriving Repr, DecidableEq

/-- The snapshot dict returned by `record_snapshot`: the equity data
plus the P&L fields (profit_tracker.py lines 191-198). -/
structure Snapshot where
  equity : EquityData
  starting_equity_usd : ℚ
  starting_timestamp : Option String
  pnl_absolute_usd : ℚ
  pnl_percent : ℚ
  pnl_since_last_usd : ℚ
deriving Repr, DecidableEq

/-- `ProfitTracker.record_snapshot` (profit_tracker.py lines 166-213) as
a pure state transformer: the freshly computed equity data is the
oracle input; returns the new tracker state and the returned snapshot.
(The `_save_history` persistence call has no effect on the in-memory
state being modelled.) -/
def record_snapshot (st : TrackerState) (ed : EquityData) : TrackerState × Snapshot :=
  let starting : ℚ :=
    match st.starting_equity with
    | none => ed.total_equity_usd
    | some b => b
  let startingTs : Option String :=
    match st.starting_equity with
    | none => some ed.timestamp
    | some _ => st.starting_timestamp
  let current := ed.total_equity_usd
  let pnl_absolute := current - starting
  let pnl_percent := if 0 < starting then pnl_absolute / starting * 100 else 0
  let pnl_since_last : ℚ :=
    match st.history.getLast? with
    | none => 0
    | some lastE => current - lastE.total_equity_usd
  let entry : HistEntry :=
    { timestamp := ed.timestamp
      total_equity_usd := current
      total_collateral_usd := ed.total_collateral_usd
      total_debt_usd := ed.total_debt_usd
      spot_value_usd := ed.spot_value_usd
      pnl_absolute_usd := pnl_absolute
      pnl_percent := pnl_percent }
  ({ history := st.history ++ [entry]
     starting_equity := some starting
     starting_timestamp := startingTs },
   { equity := ed
     starting_equity_usd := starting
     starting_timestamp := startingTs
     pnl_absolute_usd := pnl_absolute
     pnl_percent := pnl_percent
     pnl_since_last_usd := pnl_since_last })

/-- `ProfitTracker.reset_tracking` (profit_tracker.py lines 273-279):
clears history and the baseline together. -/
def reset_tracking (_st : TrackerState) : TrackerState :=
  { history := [], starting_equity := none, starting_timestamp := none }

/-- The positions using USDT as collateral, in input order: the bucket
`coll_to_positions['USDT']` built at leverage_looper.py lines 242-248. -/
def usdt_collateral_positions (loans : List Loan) : List Loan :=
  loans.filter (fun l => l.collateralCoin == "USDT")

/-- `usdt_available = max(0, usdt_balance - MIN_RESERVE_USD)`
(leverage_looper.py line 296). -/
def usdt_available (usdt_balance : ℚ) : ℚ :=
  max 0 (usdt_balance - MIN_RESERVE_USD)

/-- `usdt_per_position = usdt_available / num_positions`
(leverage_looper.py line 301). -/
def usdt_per_position (loans : List Loan) (usdt_balance : ℚ) : ℚ :=
  usdt_available usdt_balance / ((usdt_collateral_positions loans).length : ℚ)

/-- The USDT section of `sweep_spot_to_collateral` (leverage_looper.py
lines 294-333): if `usdt_available >= 1` and some position uses USDT
collateral, attempt an equal-share deposit into every such position,
skipping shares below $0.50.  Deposits are listed as
`(loanCoin, amount)`; the gateway adjustment is modelled as succeeding
(a failed one is only logged and skipped). -/
def sweep_usdt_deposits (loans : List Loan) (usdt_balance : ℚ) : List (String × ℚ) :=
  if 1 ≤ usdt_available usdt_balance ∧ usdt_collateral_positions loans ≠ [] then
    (usdt_collateral_positions loans).filterMap (fun l =>
      if usdt_per_position loans usdt_balance < 1/2 then none
      else some (l.loanCoin, usdt_per_position loans usdt_balance))
  else []

/-- The detail record appended for one swept asset
(leverage_looper.py lines 282-287): `amount` is the quantity actually
deposited, `usd` the USD figure added to `swept_usd`. -/
structure SweepDetail where
  asset : String
  amount : ℚ
  usd : ℚ
  position : String
deriving Repr, DecidableEq

/-- The body of the non-USDT sweep loop for one spot asset
(leverage_looper.py lines 254-292): skip yield-wrapper (`LD`-prefixed)
assets and USDT, skip assets with no matching collateral position or
below $0.10 of value, otherwise deposit 99% of the balance into the
first matching position.  Returns the detail record (`none` when the
asset is skipped); the gateway adjustment is modelled as succeeding.
The Python `asset.startswith('LD')` test is rendered as a comparison of
the first two characters. -/
def sweep_non_usdt_asset (pr : Price) (loans : List Loan) (asset : String)
    (amount : ℚ) : Option SweepDetail :=
  if asset.data.take 2 = "LD".data ∨ asset = "USDT" then none
  else
    match loans.find? (fun l => l.collateralCoin == asset) with
    | none => none
    | some loan =>
      let price := get_price pr asset
      let usd_value := amount * price
      if usd_value < 1/10 then none
      else
        some { asset := asset
               amount := amount * (99/100)
               usd := usd_value
               position := asset ++ "->" ++ loan.loanCoin }

/-- The result dict of one `execute_loop` cycle (leverage_looper.py
lines 120-125): `{success, borrowed_usd, added_usd, error}`. -/
structure LoopOutcome where
  success : Bool
  borrowed_usd : ℚ
  added_usd : ℚ
  error : String
deriving Repr, DecidableEq

/-- The loan-position search of `loop_position` (leverage_looper.py
lines 369-372): the first open order whose collateral and loan coins
match. -/
def find_position (loans : List Loan) (coll_coin loan_coin : String) : Option Loan :=
  loans.find? (fun l => l.collateralCoin == coll_coin && l.loanCoin == loan_coin)

/-- The external world as observed by `loop_position`, iteration by
iteration: the open-orders list and prices seen at the start of cycle
`i`, the outcome `execute_loop` would report for cycle `i`, and the
orders/prices seen by the final re-read after the loop.  Quantifying
over this oracle covers every behaviour of the gateway. -/
structure LoopEnv where
  init_prices : Price
  orders : ℕ → List Loan
  prices : ℕ → Price
  cycle_result : ℕ → LoopOutcome
  final_orders : List Loan
  final_prices : Price

/-- The result dict of `loop_position` (leverage_looper.py lines
348-356). -/
structure PositionLoopResult where
  position : String
  initial_leverage : ℚ
  final_leverage : ℚ
  loops_executed : ℕ
  total_borrowed_usd : ℚ
  total_added_usd : ℚ
  errors : List String
deriving Repr, DecidableEq

/-- The `while loop_count < max_loops` loop of `loop_position`
(leverage_looper.py lines 363-399), with `fuel = max_loops - loop_count`
as the structural bound and `i` the index of the current iteration in
the oracle.  Besides the accumulated result it returns the number of
loop-body iterations entered and the number of `execute_loop`
invocations made (instrumentation counters `iters` and `cycles`). -/
def loop_position_aux (env : LoopEnv) (coll_coin loan_coin : String) :
    ℕ → ℕ → PositionLoopResult → ℕ → ℕ → PositionLoopResult × ℕ × ℕ
  | 0, _, acc, iters, cycles => (acc, iters, cycles)
  | fuel + 1, i, acc, iters, cycles =>
    match find_position (env.orders i) coll_coin loan_coin with
    | none =>
      ({ acc with errors := acc.errors ++ ["Position no longer exists"] },
        iters + 1, cycles)
    | some current_loan =>
      let current_leverage := get_current_leverage (env.prices i) current_loan
      let borrow_usd := (calculate_borrow_amount (env.prices i) current_loan).2
      if borrow_usd < MIN_LOOP_USD then
        ({ acc with final_leverage := current_leverage }, iters + 1, cycles)
      else
        let loop_result := env.cycle_result i
        if loop_result.success then
          loop_position_aux env coll_coin loan_coin fuel (i + 1)
            { acc with
                loops_executed := acc.loops_executed + 1
                total_borrowed_usd := acc.total_borrowed_usd + loop_result.borrowed_usd
                total_added_usd := acc.total_added_usd + loop_result.added_usd }
            (iters + 1) (cycles + 1)
        else
          ({ acc with errors := acc.errors ++ [loop_result.error] },
            iters + 1, cycles + 1)

/-- `LeverageLooper.loop_position` (leverage_looper.py lines 337-410):
run cycles on one position with the `max_loops = 50` safety limit, then
re-read the position once more for the final leverage.  Returns the
result dict together with the two instrumentation counters of
`loop_position_aux`. -/
def loop_position (env : LoopEnv) (loan : Loan) : PositionLoopResult × ℕ × ℕ :=
  let coll_coin := loan.collateralCoin
  let loan_coin := loan.loanCoin
  let initial_leverage := get_current_leverage env.init_prices loan
  let init : PositionLoopResult :=
    { position := coll_coin ++ "->" ++ loan_coin
      initial_leverage := initial_leverage
      final_leverage := initial_leverage
      loops_executed := 0
      total_borrowed_usd := 0
      total_added_usd := 0
      errors := [] }
  let max_loops := 50
  let r := loop_position_aux env coll_coin loan_coin max_loops 0 init 0 0
  match find_position env.final_orders coll_coin loan_coin with
  | some l =>
    ({ r.1 with final_leverage := get_current_leverage env.final_prices l }, r.2)
  | none => r

/-- The dict returned by `client.convert_asset`: its `status` and
`toAmount` fields (leverage_looper.py lines 181-183). -/
structure ConvertResult where
  status : String
  toAmount : ℚ
deriving Repr, DecidableEq

/-- The exchange gateway as observed by one `execute_loop` cycle.  Each
fallible call is an `Except` carrying the raised exception's message;
`market_sell` yields the fill's `cummulativeQuoteQty` and `market_buy`
the fill's `executedQty`. -/
structure Gateway where
  price : Price
  borrow_result : Except String Unit
  spot_balance : Except String ℚ
  market_sell : String → ℚ → Except String ℚ
  market_buy : String → ℚ → Except String ℚ
  convert_asset : String → String → ℚ → Except String ConvertResult
  adjust_ltv : Except String Unit

/-- The order-book route of the convert step (leverage_looper.py lines
167-178): sell-then-buy through USDT when neither asset is USDT, a
direct buy when the loan asset is USDT, a direct sell when the
collateral asset is USDT.  Produces the amount credited in the
collateral asset. -/
def order_book_trade (gw : Gateway) (coll_coin loan_coin : String)
    (convert_amount : ℚ) : Except String ℚ :=
  if loan_coin ≠ "USDT" ∧ coll_coin ≠ "USDT" then do
    let usdt_received ← gw.market_sell (loan_coin ++ "USDT") convert_amount
    gw.market_buy (coll_coin ++ "USDT") usdt_received
  else if loan_coin = "USDT" then
    gw.market_buy (coll_coin ++ "USDT") convert_amount
  else
    gw.market_sell (loan_coin ++ "USDT") convert_amount

/-- One `convert_asset` call with its status check (leverage_looper.py
lines 181-186 and 189-194): yields `toAmount` on `SUCCESS`, an error
otherwise (a raised exception is caught by the enclosing handler as a
`Convert error`). -/
def quote_convert (gw : Gateway) (loan_coin coll_coin : String)
    (convert_amount : ℚ) : Except String ℚ :=
  match gw.convert_asset loan_coin coll_coin convert_amount with
  | .error e => .error ("Convert error: " ++ e)
  | .ok cr => if cr.status = "SUCCESS" then .ok cr.toAmount else .error "Convert failed"

/-- The conversion step of `execute_loop` (leverage_looper.py lines
150-199) for distinct assets, plus the trivial same-asset shortcut:
returns the amount to deposit (or the error failing the cycle) together
with the number of `convert_asset` (quote-conversion) invocations
made. -/
def convert_step (gw : Gateway) (coll_coin loan_coin : String)
    (borrow_amount : ℚ) : Except String ℚ × ℕ :=
  if coll_coin = loan_coin then (.ok borrow_amount, 0)
  else
    match gw.spot_balance with
    | .error e => (.error ("Convert error: " ++ e), 0)
    | .ok loan_balance =>
      let convert_amount := min borrow_amount (loan_balance * (99/100))
      if convert_amount < 1/100 then
        (.error ("Insufficient " ++ loan_coin ++ " balance to convert"), 0)
      else
        let convert_usd := convert_amount * get_price gw.price loan_coin
        if 5 ≤ convert_usd then
          match order_book_trade gw coll_coin loan_coin convert_amount with
          | .ok qty => (.ok qty, 0)
          | .error _ => (quote_convert gw loan_coin coll_coin convert_amount, 1)
        else
          (quote_convert gw loan_coin coll_coin convert_amount, 1)

/-- `LeverageLooper.execute_loop` (leverage_looper.py lines 106-227):
one borrow-convert-deposit cycle against the gateway, together with the
number of `convert_asset` invocations made.  The Python dict's
`error: None` is rendered as the empty string on the success path. -/
def execute_loop (gw : Gateway) (loan : Loan) : LoopOutcome × ℕ :=
  let coll_coin := loan.collateralCoin
  let loan_coin := loan.loanCoin
  let borrow_amount := (calculate_borrow_amount gw.price loan).1
  let borrow_usd := (calculate_borrow_amount gw.price loan).2
  if borrow_usd < MIN_LOOP_USD then
    ({ success := false, borrowed_usd := 0, added_usd := 0,
       error := "Borrow amount too small" }, 0)
  else
    match gw.borrow_result with
    | .error e =>
      ({ success := false, borrowed_usd := 0, added_usd := 0,
         error := "Borrow failed: " ++ e }, 0)
    | .ok _ =>
      match convert_step gw coll_coin loan_coin borrow_amount with
      | (.error e, n) =>
        ({ success := false, borrowed_usd := borrow_usd, added_usd := 0,
           error := e }, n)
      | (.ok add_amount, n) =>
        if add_amount < 1/1000 then
          ({ success := false, borrowed_usd := borrow_usd, added_usd := 0,
             error := "Converted amount too small to add as collateral" }, n)
        else
          match gw.adjust_ltv with
          | .ok _ =>
            ({ success := true, borrowed_usd := borrow_usd,
               added_usd := add_amount * get_price gw.price coll_coin,
               error := "" }, n)
          | .error e =>
            ({ success := false, borrowed_usd := borrow_usd, added_usd := 0,
               error := "Add collateral failed: " ++ e }, n)

/-- The processing order of `loop_all_positions` (leverage_looper.py
lines 446-455): pair every open position with its current leverage,
sort ascending by that key (Python's stable `sort(key=lambda x: x[0])`,
rendered as a stable merge sort), and run the per-position driver on
the positions in that order. -/
def loop_all_order (pr : Price) (loans : List Loan) : List Loan :=
  ((loans.map (fun loan => (get_current_leverage pr loan, loan))).mergeSort
      (fun a b => decide (a.1 ≤ b.1))).map Prod.snd

/-! ## Theorems -/

/-- Helper: `filterMap` of a function that always returns `some` is a `map`. -/
theorem filterMap_always_some {α β : Type} (f : α → β) :
    ∀ l : List α, l.filterMap (fun a => some (f a)) = l.map f
  | [] => rfl
  | a :: t => by
    simp only [List.filterMap_cons, List.map_cons]
    rw [filterMap_always_some f t]

/-- Helper: `filterMap` of a function that always returns `none` is empty. -/
theorem filterMap_always_none {α β : Type} :
    ∀ l : List α, l.filterMap (fun _ => (none : Option β)) = []
  | [] => rfl
  | _ :: t => by
    simp only [List.filterMap_cons]
    exact filterMap_always_none t

/-- C1: for every position, `get_current_leverage` returns 0 when either
price is unavailable (0) or collateral USD value `C` is at most debt USD
value `D`, and otherwise returns `C / (C - D)`. -/
theorem get_current_leverage_correct (pr : Price) (loan : Loan) :
    ((get_price pr loan.collateralCoin = 0 ∨ get_price pr loan.loanCoin = 0 ∨
        loan.collateralAmount * get_price pr loan.collateralCoin ≤
          loan.totalDebt * get_price pr loan.loanCoin) →
      get_current_leverage pr loan = 0) ∧
    (get_price pr loan.collateralCoin ≠ 0 → get_price pr loan.loanCoin ≠ 0 →
      loan.totalDebt * get_price pr loan.loanCoin <
        loan.collateralAmount * get_price pr loan.collateralCoin →
      get_current_leverage pr loan =
        loan.collateralAmount * get_price pr loan.collateralCoin /
          (loan.collateralAmount * get_price pr loan.collateralCoin -
            loan.totalDebt * get_price pr loan.loanCoin)) := by
  unfold get_current_leverage
  set cp := get_price pr loan.collateralCoin with hcp
  set lp := get_price pr loan.loanCoin with hlp
  constructor
  · intro h
    rcases h with h | h | h
    · simp [h]
    · simp [h]
    · by_cases hz : cp = 0 ∨ lp = 0
      · simp [hz]
      · simp only [if_neg hz, if_pos h]
  · intro h1 h2 h3
    have hz : ¬ (cp = 0 ∨ lp = 0) := by
      rintro (h | h) <;> [exact h1 h; exact h2 h]
    have hle : ¬ (loan.collateralAmount * cp ≤ loan.totalDebt * lp) := not_le.mpr h3
    have hpos : 0 < loan.collateralAmount * cp - loan.totalDebt * lp := by linarith
    simp only [if_neg hz, if_neg hle, if_pos hpos]

/-- C1 witness: collateral $100, debt $75 (USDT both sides) has known
nonzero prices and positive equity, and the leverage evaluates to 4. -/
theorem get_current_leverage_correct_witness :
    get_current_leverage (fun _ => 0) ⟨"USDT", "USDT", 100, 75, 0⟩ = 4 := by
  have h := (get_current_leverage_correct (fun _ => 0)
    ⟨"USDT", "USDT", 100, 75, 0⟩).2
  simp only [get_price] at h
  norm_num at h
  rw [h]

/-- C2: borrow capacity at target LTV 0.75 is `C * 0.75 - D`; unavailable
prices or a value below the $1 minimum-loop threshold give `(0, 0)`, and
otherwise the pair `(borrow_usd / loan_price, borrow_usd)` is returned. -/
theorem calculate_borrow_amount_correct (pr : Price) (loan : Loan) :
    ((get_price pr loan.collateralCoin = 0 ∨ get_price pr loan.loanCoin = 0 ∨
        loan.collateralAmount * get_price pr loan.collateralCoin * TARGET_LTV -
          loan.totalDebt * get_price pr loan.loanCoin < MIN_LOOP_USD) →
      calculate_borrow_amount pr loan = (0, 0)) ∧
    (get_price pr loan.collateralCoin ≠ 0 → get_price pr loan.loanCoin ≠ 0 →
      MIN_LOOP_USD ≤
        loan.collateralAmount * get_price pr loan.collateralCoin * TARGET_LTV -
          loan.totalDebt * get_price pr loan.loanCoin →
      calculate_borrow_amount pr loan =
        ((loan.collateralAmount * get_price pr loan.collateralCoin * TARGET_LTV -
            loan.totalDebt * get_price pr loan.loanCoin) / get_price pr loan.loanCoin,
          loan.collateralAmount * get_price pr loan.collateralCoin * TARGET_LTV -
            loan.totalDebt * get_price pr loan.loanCoin)) := by
  unfold calculate_borrow_amount
  set cp := get_price pr loan.collateralCoin with hcp
  set lp := get_price pr loan.loanCoin with hlp
  constructor
  · intro h
    rcases h with h | h | h
    · simp [h]
    · simp [h]
    · by_cases hz : cp = 0 ∨ lp = 0
      · simp [hz]
      · simp only [if_neg hz, if_pos h]
  · intro h1 h2 h3
    have hz : ¬ (cp = 0 ∨ lp = 0) := by
      rintro (h | h) <;> [exact h1 h; exact h2 h]
    have hlt : ¬ (loan.collateralAmount * cp * TARGET_LTV - loan.totalDebt * lp <
        MIN_LOOP_USD) := not_lt.mpr h3
    simp only [if_neg hz, if_neg hlt]

/-- C2 witness: collateral $100 with debt $50 (USDT both sides) yields
`borrow_usd = 25`, i.e. the pair `(25, 25)`. -/
theorem calculate_borrow_amount_correct_witness :
    calculate_borrow_amount (fun _ => 0) ⟨"USDT", "USDT", 100, 50, 0⟩ = (25, 25) := by
  have h := (calculate_borrow_amount_correct (fun _ => 0)
    ⟨"USDT", "USDT", 100, 50, 0⟩).2
  simp only [get_price, TARGET_LTV, MIN_LOOP_USD] at h
  norm_num at h
  rw [h]

/-- C4 counterexample: collateral USDT (price 1, 100 units), loan ETH
whose price lookup fails (0), debt 50: `get_current_leverage` returns 0
(zero-price guard) while `calculate_position_equity` reports leverage 1
(collateral $100, debt valued $0).  The two consumers of valuation
diverge. -/
theorem leverage_single_source_counterexample :
    get_current_leverage (fun _ => 0) ⟨"USDT", "ETH", 100, 50, 0⟩ = 0 ∧
    (calculate_position_equity (fun _ => 0) ⟨"USDT", "ETH", 100, 50, 0⟩).leverage = 1 := by
  have hne : ¬ ("ETH" : String) = "USDT" := by decide
  constructor
  · norm_num [get_current_leverage, get_price, hne]
  · norm_num [calculate_position_equity, get_price, hne]

/-- C4 (amended): whenever the loan-asset price is available (nonzero),
the leverage computed by `get_current_leverage` equals the `leverage`
field computed by `calculate_position_equity`; the two can diverge only
when the loan price lookup fails. -/
theorem leverage_single_source_amended (pr : Price) (loan : Loan)
    (h : get_price pr loan.loanCoin ≠ 0) :
    get_current_leverage pr loan = (calculate_position_equity pr loan).leverage := by
  simp only [get_current_leverage, calculate_position_equity]
  set cp := get_price pr loan.collateralCoin with hcp
  set lp := get_price pr loan.loanCoin with hlp
  by_cases h0 : cp = 0
  · rw [if_pos (Or.inl h0), h0]
    rw [mul_zero]
    split_ifs with hpos
    · rw [zero_div]
    · rfl
  · rw [if_neg (by rintro (hh | hh); exacts [h0 hh, h hh])]
    by_cases hle : loan.collateralAmount * cp ≤ loan.totalDebt * lp
    · rw [if_pos hle, if_neg (by simp only [not_lt]; linarith)]
    · have hpos : 0 < loan.collateralAmount * cp - loan.totalDebt * lp := by
        have := not_le.mp hle
        linarith
      rw [if_neg hle, if_pos hpos]

/-- C4 (amended) witness: with both assets USDT (price 1, nonzero),
collateral 100 and debt 75, the two valuations agree. -/
theorem leverage_single_source_amended_witness :
    get_current_leverage (fun _ => 0) ⟨"USDT", "USDT", 100, 75, 0⟩ =
      (calculate_position_equity (fun _ => 0) ⟨"USDT", "USDT", 100, 75, 0⟩).leverage :=
  leverage_single_source_amended _ _ (by norm_num [get_price])

/-- C6: the P&L baseline is set exactly once.  A `record_snapshot` on a
fresh state (no baseline, empty history) — also immediately after
`reset_tracking` — sets the baseline to its own equity and reports both
`pnl_absolute` and `pnl_since_last` as 0; any later `record_snapshot`
leaves the baseline unchanged and reports P&L relative to it. -/
theorem record_snapshot_baseline (st : TrackerState) (ed : EquityData) :
    (st.starting_equity = none → st.history = [] →
      (record_snapshot st ed).1.starting_equity = some ed.total_equity_usd ∧
      (record_snapshot st ed).2.pnl_absolute_usd = 0 ∧
      (record_snapshot st ed).2.pnl_since_last_usd = 0) ∧
    (∀ b, st.starting_equity = some b →
      (record_snapshot st ed).1.starting_equity = some b ∧
      (record_snapshot st ed).2.pnl_absolute_usd = ed.total_equity_usd - b) ∧
    ((record_snapshot (reset_tracking st) ed).1.starting_equity =
        some ed.total_equity_usd ∧
      (record_snapshot (reset_tracking st) ed).2.pnl_absolute_usd = 0 ∧
      (record_snapshot (reset_tracking st) ed).2.pnl_since_last_usd = 0) := by
  refine ⟨?_, ?_, ?_⟩
  · intro hb hh
    simp [record_snapshot, hb, hh]
  · intro b hb
    simp [record_snapshot, hb]
  · simp [record_snapshot, reset_tracking]

/-- C6 witness: starting from the empty tracker state with computed
equity $500, the baseline becomes $500 and both P&L figures are 0; a
second snapshot at the same equity keeps the baseline and reports
`pnl_absolute = 0`. -/
theorem record_snapshot_baseline_witness :
    ((record_snapshot ⟨[], none, none⟩ ⟨500, 0, 0, 0, "t0"⟩).1.starting_equity =
        some 500 ∧
      (record_snapshot ⟨[], none, none⟩ ⟨500, 0, 0, 0, "t0"⟩).2.pnl_absolute_usd = 0 ∧
      (record_snapshot ⟨[], none, none⟩ ⟨500, 0, 0, 0, "t0"⟩).2.pnl_since_last_usd = 0) ∧
    ((record_snapshot
          (record_snapshot ⟨[], none, none⟩ ⟨500, 0, 0, 0, "t0"⟩).1
          ⟨500, 0, 0, 0, "t1"⟩).1.starting_equity = some 500 ∧
      (record_snapshot
          (record_snapshot ⟨[], none, none⟩ ⟨500, 0, 0, 0, "t0"⟩).1
          ⟨500, 0, 0, 0, "t1"⟩).2.pnl_absolute_usd = 500 - 500) := by
  refine ⟨(record_snapshot_baseline ⟨[], none, none⟩ ⟨500, 0, 0, 0, "t0"⟩).1 rfl rfl, ?_⟩
  exact (record_snapshot_baseline
    (record_snapshot ⟨[], none, none⟩ ⟨500, 0, 0, 0, "t0"⟩).1
    ⟨500, 0, 0, 0, "t1"⟩).2.1 500 rfl

/-- C5 counterexample: balance $10.50 gives `available = $0.50`, which
is positive, there is a USDT-collateral position, and the equal share
($0.50) is not below the $0.50 per-position minimum — yet the code makes
no deposit at all, because its guard requires `usdt_available >= 1`,
not merely positive. -/
theorem sweep_even_split_counterexample :
    0 < usdt_available (21/2) ∧
    usdt_collateral_positions [⟨"USDT", "BTC", 0, 0, 0⟩] ≠ [] ∧
    ¬ usdt_per_position [⟨"USDT", "BTC", 0, 0, 0⟩] (21/2) < 1/2 ∧
    sweep_usdt_deposits [⟨"USDT", "BTC", 0, 0, 0⟩] (21/2) = [] := by
  have hlist : usdt_collateral_positions [⟨"USDT", "BTC", 0, 0, 0⟩] =
      [⟨"USDT", "BTC", 0, 0, 0⟩] := rfl
  have havail : usdt_available (21/2) = 1/2 := by
    rw [usdt_available, MIN_RESERVE_USD]
    norm_num
  refine ⟨by rw [havail]; norm_num, by rw [hlist]; simp, ?_, ?_⟩
  · rw [usdt_per_position, hlist, havail]
    norm_num
  · rw [sweep_usdt_deposits, if_neg]
    rintro ⟨h1, -⟩
    rw [havail] at h1
    norm_num at h1

/-- C5 (amended): whenever `usdt_available = max(0, balance - $10)` is
at least $1 (not merely positive, as the claim put it) and at least one
position uses USDT collateral, the available amount is divided evenly:
every recorded deposit is the equal share `usdt_per_position`; when that
share is at least $0.50 there is one deposit per USDT-collateral
position (in order) and the deposits sum to the whole available amount;
otherwise every share is skipped. -/
theorem sweep_usdt_even_split (loans : List Loan) (bal : ℚ)
    (h1 : 1 ≤ usdt_available bal)
    (h2 : usdt_collateral_positions loans ≠ []) :
    (∀ d ∈ sweep_usdt_deposits loans bal, d.2 = usdt_per_position loans bal) ∧
    (¬ usdt_per_position loans bal < 1/2 →
      (sweep_usdt_deposits loans bal).map Prod.fst =
        (usdt_collateral_positions loans).map Loan.loanCoin ∧
      ((sweep_usdt_deposits loans bal).map Prod.snd).sum = usdt_available bal) ∧
    (usdt_per_position loans bal < 1/2 → sweep_usdt_deposits loans bal = []) := by
  unfold sweep_usdt_deposits
  rw [if_pos ⟨h1, h2⟩]
  by_cases hlt : usdt_per_position loans bal < 1/2
  · simp only [if_pos hlt]
    rw [filterMap_always_none]
    refine ⟨?_, ?_, ?_⟩
    · intro d hd
      cases hd
    · intro hn
      exact absurd hlt hn
    · intro _
      rfl
  · simp only [if_neg hlt]
    rw [filterMap_always_some (fun l : Loan => (l.loanCoin, usdt_per_position loans bal))]
    have hlen : ((usdt_collateral_positions loans).length : ℚ) ≠ 0 :=
      Nat.cast_ne_zero.mpr (Nat.pos_iff_ne_zero.mp (List.length_pos.mpr h2))
    refine ⟨?_, ?_, fun hc => absurd hc hlt⟩
    · intro d hd
      obtain ⟨l, -, rfl⟩ := List.mem_map.mp hd
      rfl
    · intro _
      constructor
      · rw [List.map_map]
        rfl
      · rw [List.map_map]
        have : (Prod.snd ∘ fun l : Loan => (l.loanCoin, usdt_per_position loans bal)) =
            fun _ : Loan => usdt_per_position loans bal := rfl
        rw [this, List.map_const', List.sum_replicate, nsmul_eq_mul,
          usdt_per_position, mul_div_cancel₀ _ hlen]

/-- C5 witness: a $93 balance with $10 reserve over 3 USDT-collateral
positions is split evenly: one $83/3 deposit per position, summing to
exactly $83. -/
theorem sweep_usdt_even_split_witness :
    ((sweep_usdt_deposits
        [⟨"USDT", "BTC", 0, 0, 0⟩, ⟨"USDT", "ETH", 0, 0, 0⟩, ⟨"USDT", "SOL", 0, 0, 0⟩]
        93).map Prod.fst = ["BTC", "ETH", "SOL"]) ∧
    (((sweep_usdt_deposits
        [⟨"USDT", "BTC", 0, 0, 0⟩, ⟨"USDT", "ETH", 0, 0, 0⟩, ⟨"USDT", "SOL", 0, 0, 0⟩]
        93).map Prod.snd).sum = 83) ∧
    (∀ d ∈ sweep_usdt_deposits
        [⟨"USDT", "BTC", 0, 0, 0⟩, ⟨"USDT", "ETH", 0, 0, 0⟩, ⟨"USDT", "SOL", 0, 0, 0⟩]
        93, d.2 = 83/3) := by
  have hlist : usdt_collateral_positions
      [⟨"USDT", "BTC", 0, 0, 0⟩, ⟨"USDT", "ETH", 0, 0, 0⟩, ⟨"USDT", "SOL", 0, 0, 0⟩] =
      [⟨"USDT", "BTC", 0, 0, 0⟩, ⟨"USDT", "ETH", 0, 0, 0⟩, ⟨"USDT", "SOL", 0, 0, 0⟩] := rfl
  have havail : usdt_available 93 = 83 := by
    rw [usdt_available, MIN_RESERVE_USD]
    norm_num
  have hper : usdt_per_position
      [⟨"USDT", "BTC", 0, 0, 0⟩, ⟨"USDT", "ETH", 0, 0, 0⟩, ⟨"USDT", "SOL", 0, 0, 0⟩] 93 =
      83/3 := by
    rw [usdt_per_position, hlist, havail]
    norm_num
  obtain ⟨ha, hb, -⟩ := sweep_usdt_even_split
    [⟨"USDT", "BTC", 0, 0, 0⟩, ⟨"USDT", "ETH", 0, 0, 0⟩, ⟨"USDT", "SOL", 0, 0, 0⟩] 93
    (by rw [havail]; norm_num) (by rw [hlist]; simp)
  obtain ⟨hmap, hsum⟩ := hb (by rw [hper]; norm_num)
  refine ⟨?_, ?_, ?_⟩
  · rw [hmap, hlist]
    rfl
  · rw [hsum, havail]
  · intro d hd
    rw [ha d hd, hper]

/-- C10: when the non-USDT sweep processes an asset with a matching
collateral position and at least $0.10 of value, the deposited amount
is 99% of the held balance while the reported `usd` figure (added to
`swept_usd`) is the full 100% value, so the reported swept USD strictly
exceeds the USD value actually deposited. -/
theorem sweep_reports_full_value (pr : Price) (loans : List Loan) (asset : String)
    (amount : ℚ) (loan : Loan)
    (hld : ¬ asset.data.take 2 = "LD".data) (hus : asset ≠ "USDT")
    (hfind : loans.find? (fun l => l.collateralCoin == asset) = some loan)
    (hmin : ¬ amount * get_price pr asset < 1/10) :
    ∃ d, sweep_non_usdt_asset pr loans asset amount = some d ∧
      d.amount = amount * (99/100) ∧
      d.usd = amount * get_price pr asset ∧
      d.amount * get_price pr asset < d.usd := by
  refine ⟨{ asset := asset
            amount := amount * (99/100)
            usd := amount * get_price pr asset
            position := asset ++ "->" ++ loan.loanCoin }, ?_, rfl, rfl, ?_⟩
  · rw [sweep_non_usdt_asset, if_neg (by rintro (h | h); exacts [hld h, hus h]), hfind]
    simp only [if_neg hmin]
  · have hpos : 0 < amount * get_price pr asset := by
      have := not_lt.mp hmin
      linarith
    simp only
    calc amount * (99/100) * get_price pr asset
        = (99/100) * (amount * get_price pr asset) := by ring
      _ < amount * get_price pr asset := by linarith

/-- C10 witness: 1 BTC at price $1 with a BTC-collateral position is
swept as a 0.99 BTC deposit while $1.00 is reported swept. -/
theorem sweep_reports_full_value_witness :
    ∃ d, sweep_non_usdt_asset (fun _ => 1) [⟨"BTC", "USDT", 0, 0, 0⟩] "BTC" 1 = some d ∧
      d.amount = 1 * (99/100) ∧
      d.usd = 1 * get_price (fun _ => 1) "BTC" ∧
      d.amount * get_price (fun _ => 1) "BTC" < d.usd :=
  sweep_reports_full_value (fun _ => 1) [⟨"BTC", "USDT", 0, 0, 0⟩] "BTC" 1
    ⟨"BTC", "USDT", 0, 0, 0⟩ (by decide) (by decide) rfl
    (by norm_num [get_price, (by decide : ¬ ("BTC" : String) = "USDT")])

/-- Helper invariant for `loop_position_aux`: the iteration counter
grows by at most `fuel`; at most one error is ever appended (the loop
breaks right after recording one); and every `execute_loop` invocation
is accounted for by either a successful loop or the single recorded
error. -/
theorem loop_position_aux_inv (env : LoopEnv) (coll_coin loan_coin : String) :
    ∀ (fuel i : ℕ) (acc : PositionLoopResult) (iters cycles : ℕ),
      (loop_position_aux env coll_coin loan_coin fuel i acc iters cycles).2.1 ≤
          iters + fuel ∧
        (loop_position_aux env coll_coin loan_coin fuel i acc iters
              cycles).1.errors.length ≤
          acc.errors.length + 1 ∧
        (loop_position_aux env coll_coin loan_coin fuel i acc iters cycles).2.2 +
            acc.loops_executed + acc.errors.length ≤
          cycles +
            (loop_position_aux env coll_coin loan_coin fuel i acc iters
                cycles).1.loops_executed +
            (loop_position_aux env coll_coin loan_coin fuel i acc iters
                cycles).1.errors.length
  | 0, i, acc, iters, cycles => by
    rw [loop_position_aux]
    exact ⟨by dsimp only; omega, by dsimp only; omega, by dsimp only; omega⟩
  | fuel + 1, i, acc, iters, cycles => by
    rw [loop_position_aux]
    cases hfind : find_position (env.orders i) coll_coin loan_coin with
    | none =>
      refine ⟨?_, ?_, ?_⟩
      · dsimp only
        omega
      · dsimp only
        simp [List.length_append]
      · dsimp only
        simp only [List.length_append, List.length_cons, List.length_nil]
        omega
    | some current_loan =>
      dsimp only
      split_ifs with hb hs
      · exact ⟨by dsimp only; omega, by dsimp only; omega, by dsimp only; omega⟩
      · obtain ⟨ih1, ih2, ih3⟩ := loop_position_aux_inv env coll_coin loan_coin fuel
          (i + 1)
          { acc with
              loops_executed := acc.loops_executed + 1
              total_borrowed_usd :=
                acc.total_borrowed_usd + (env.cycle_result i).borrowed_usd
              total_added_usd := acc.total_added_usd + (env.cycle_result i).added_usd }
          (iters + 1) (cycles + 1)
        refine ⟨le_trans ih1 (by omega), ?_, ?_⟩
        · dsimp only at ih2
          exact ih2
        · dsimp only at ih3
          omega
      · refine ⟨?_, ?_, ?_⟩
        · dsimp only
          omega
        · dsimp only
          simp [List.length_append]
        · dsimp only
          simp only [List.length_append, List.length_cons, List.length_nil]
          omega

/-- C3: for every position and every behaviour of the external gateway,
the `loop_position` driver enters its cycle loop at most 50 times (the
`max_loops` safety bound), even if the reported borrow capacity never
drops below the minimum-loop threshold and every cycle succeeds. -/
theorem loop_position_iterations_bounded (env : LoopEnv) (loan : Loan) :
    (loop_position env loan).2.1 ≤ 50 := by
  have h := (loop_position_aux_inv env loan.collateralCoin loan.loanCoin 50 0
    { position := loan.collateralCoin ++ "->" ++ loan.loanCoin
      initial_leverage := get_current_leverage env.init_prices loan
      final_leverage := get_current_leverage env.init_prices loan
      loops_executed := 0
      total_borrowed_usd := 0
      total_added_usd := 0
      errors := [] } 0 0).1
  rw [loop_position]
  dsimp only
  cases hf : find_position env.final_orders loan.collateralCoin loan.loanCoin with
  | none => simpa using h
  | some l => simpa using h

/-- C9: every run of `loop_position` records at most one error, and the
number of `execute_loop` invocations never exceeds the number of
successful loops plus the (at most one) recorded error — i.e. no
further cycle is executed once an error is recorded. -/
theorem loop_position_single_error (env : LoopEnv) (loan : Loan) :
    (loop_position env loan).1.errors.length ≤ 1 ∧
    (loop_position env loan).2.2 ≤
      (loop_position env loan).1.loops_executed +
        (loop_position env loan).1.errors.length := by
  have h := loop_position_aux_inv env loan.collateralCoin loan.loanCoin 50 0
    { position := loan.collateralCoin ++ "->" ++ loan.loanCoin
      initial_leverage := get_current_leverage env.init_prices loan
      final_leverage := get_current_leverage env.init_prices loan
      loops_executed := 0
      total_borrowed_usd := 0
      total_added_usd := 0
      errors := [] } 0 0
  rw [loop_position]
  dsimp only
  cases hf : find_position env.final_orders loan.collateralCoin loan.loanCoin with
  | none =>
    obtain ⟨-, h2, h3⟩ := h
    constructor
    · simpa using h2
    · simp only at h3 ⊢
      omega
  | some l =>
    obtain ⟨-, h2, h3⟩ := h
    constructor
    · simpa using h2
    · simp only at h3 ⊢
      omega

/-- C7: in the conversion step of a cycle (distinct assets, convertible
amount above dust and worth at least $5), when the order-book path
fails for any reason the quote-based conversion primitive is invoked
exactly once as fallback, and the step fails the cycle exactly when
that fallback raises or reports a non-SUCCESS status — on a SUCCESS
fallback the cycle proceeds with the converted amount. -/
theorem convert_fallback_once (gw : Gateway) (coll_coin loan_coin : String)
    (borrow_amount loan_balance ca : ℚ)
    (hca : ca = min borrow_amount (loan_balance * (99/100)))
    (hne : coll_coin ≠ loan_coin)
    (hbal : gw.spot_balance = .ok loan_balance)
    (hdust : ¬ ca < 1/100)
    (hsize : 5 ≤ ca * get_price gw.price loan_coin)
    (e : String)
    (hfail : order_book_trade gw coll_coin loan_coin ca = .error e) :
    convert_step gw coll_coin loan_coin borrow_amount =
      (quote_convert gw loan_coin coll_coin ca, 1) ∧
    (∀ cr, gw.convert_asset loan_coin coll_coin ca = .ok cr →
      cr.status = "SUCCESS" →
      (convert_step gw coll_coin loan_coin borrow_amount).1 = .ok cr.toAmount) ∧
    (∀ cr, gw.convert_asset loan_coin coll_coin ca = .ok cr →
      cr.status ≠ "SUCCESS" →
      (convert_step gw coll_coin loan_coin borrow_amount).1 = .error "Convert failed") ∧
    (∀ e2, gw.convert_asset loan_coin coll_coin ca = .error e2 →
      (convert_step gw coll_coin loan_coin borrow_amount).1 =
        .error ("Convert error: " ++ e2)) := by
  have hstep : convert_step gw coll_coin loan_coin borrow_amount =
      (quote_convert gw loan_coin coll_coin ca, 1) := by
    rw [convert_step, if_neg hne, hbal]
    dsimp only
    rw [← hca]
    rw [if_neg hdust, if_pos hsize, hfail]
  refine ⟨hstep, ?_, ?_, ?_⟩
  · intro cr hcr hsucc
    rw [hstep]
    dsimp only
    rw [quote_convert, hcr]
    simp [hsucc]
  · intro cr hcr hsucc
    rw [hstep]
    dsimp only
    rw [quote_convert, hcr]
    simp [hsucc]
  · intro e2 he2
    rw [hstep]
    dsimp only
    rw [quote_convert, he2]

/-- C7 witness: with a gateway whose order-book trades all fail and
whose quote conversion succeeds returning the requested amount, the
conversion step for BTC-collateral/ETH-loan with borrow amount 10 and
spot balance 100 makes exactly one quote-conversion call and succeeds
with amount 10. -/
theorem convert_fallback_once_witness :
    convert_step
      { price := fun _ => 1
        borrow_result := .ok ()
        spot_balance := .ok 100
        market_sell := fun _ _ => .error "down"
        market_buy := fun _ _ => .error "down"
        convert_asset := fun _ _ a => .ok ⟨"SUCCESS", a⟩
        adjust_ltv := .ok () } "BTC" "ETH" 10 = (.ok 10, 1) := by
  have hmin : min (10 : ℚ) (100 * (99/100)) = 10 := by
    rw [min_def]
    norm_num
  have h := (convert_fallback_once
    { price := fun _ => 1
      borrow_result := .ok ()
      spot_balance := .ok 100
      market_sell := fun _ _ => .error "down"
      market_buy := fun _ _ => .error "down"
      convert_asset := fun _ _ a => .ok ⟨"SUCCESS", a⟩
      adjust_ltv := .ok () } "BTC" "ETH" 10 100 10
    hmin.symm (by decide) rfl (by norm_num)
    (by norm_num [get_price, (by decide : ¬ ("ETH" : String) = "USDT")]) "down" rfl).1
  rw [h]
  rfl

/-- C8: `loop_all_positions` runs the per-position driver on a
permutation of the open positions whose computed leverages are in
ascending order (lowest-leverage position first). -/
theorem loop_all_positions_sorted (pr : Price) (loans : List Loan) :
    List.Perm (loop_all_order pr loans) loans ∧
    List.Sorted (· ≤ ·) ((loop_all_order pr loans).map (get_current_leverage pr)) := by
  have hperm := List.mergeSort_perm
    (loans.map (fun loan => (get_current_leverage pr loan, loan)))
    (fun a b => decide (a.1 ≤ b.1))
  constructor
  · have h := hperm.map Prod.snd
    rw [List.map_map] at h
    have hmap : List.map (Prod.snd ∘ fun loan => (get_current_leverage pr loan, loan))
        loans = loans := List.map_id loans
    rw [hmap] at h
    rw [loop_all_order]
    exact h
  · have htrans : ∀ a b c : ℚ × Loan,
        decide (a.1 ≤ b.1) → decide (b.1 ≤ c.1) → decide (a.1 ≤ c.1) := by
      intro a b c hab hbc
      simp only [decide_eq_true_eq] at hab hbc ⊢
      exact le_trans hab hbc
    have htotal : ∀ a b : ℚ × Loan,
        decide (a.1 ≤ b.1) || decide (b.1 ≤ a.1) := by
      intro a b
      simpa using le_total a.1 b.1
    have hsort := List.sorted_mergeSort htrans htotal
      (loans.map (fun loan => (get_current_leverage pr loan, loan)))
    have hkey : ∀ x ∈ (loans.map
          (fun loan => (get_current_leverage pr loan, loan))).mergeSort
          (fun a b => decide (a.1 ≤ b.1)),
        x.1 = get_current_leverage pr x.2 := by
      intro x hx
      obtain ⟨l, -, rfl⟩ := List.mem_map.mp (hperm.subset hx)
      rfl
    rw [loop_all_order, List.map_map]
    refine List.pairwise_map.mpr ?_
    refine hsort.imp_of_mem ?_
    intro a b ha hb hab
    have hab2 : a.1 ≤ b.1 := of_decide_eq_true hab
    have hka := hkey a ha
    have hkb := hkey b hb
    simp only [Function.comp]
    rw [← hka, ← hkb]
    exact hab2

end LeverageLooper
